import Mathlib

/-!
Verification of the PaperBench evaluation core against its source.

Each section embeds one Python function or class from the repository as a
Lean definition (state passing for mutable attributes, `Except` for raised
exceptions, explicit `now : ℚ` parameters for `time.time()` reads), and the
theorems at the end of the file settle the specification claims about them.
-/

/- ============================================================
   paperbench/computer_utils.py — ReleasableComputer
   ============================================================ -/

/-- Side effects produced by `ReleasableComputer.release`:
`cleanup_stack.aclose()` on the popped exit stack, and `delegate.stop()`
(run with `suppress(Exception)`) when a delegate was still attached. -/
inductive RCEffect where
  | closeStack
  | stopDelegate
deriving DecidableEq, Repr

/-- Mutable attributes of a `ReleasableComputer`: `_released` and whether
`_delegate` is non-`None` (`delegateActive`). The exit stack itself is
abstracted into the `closeStack` effect. -/
structure RCState where
  released : Bool
  delegateActive : Bool
deriving DecidableEq, Repr

/-- The `RuntimeError("Releasable computer has already been released")`
raised by `_ensure_active`. -/
inductive RCError where
  | alreadyReleased
deriving DecidableEq, Repr

/-- Result of a shell command: `ExecutionResult(output, exit_code)`.
Output bytes are modelled as a list of byte values. -/
structure ExecResult where
  output : List Nat
  exit_code : Int
deriving DecidableEq, Repr

/-- Behaviour of the wrapped delegate `ComputerInterface`: what each
delegated call returns when it is actually forwarded. -/
structure DelegateBehavior where
  downloadResult : String → List Nat
  shellResult : String → Bool → ExecResult
  containerNames : List String

namespace ReleasableComputer

/-- `_ensure_active`: raises when `self._released or self._delegate is None`. -/
def ensure_active (s : RCState) : Except RCError Unit :=
  if s.released || !s.delegateActive then .error .alreadyReleased else .ok ()

/-- `release()`: returns immediately when already released; otherwise sets
`_released`, detaches the delegate, closes the popped exit stack and (when a
delegate was attached) stops it with exceptions suppressed. -/
def release (s : RCState) : RCState × List RCEffect :=
  if s.released then (s, [])
  else
    ({ released := true, delegateActive := false },
      RCEffect.closeStack :: (if s.delegateActive then [RCEffect.stopDelegate] else []))

/-- `stop()`: `await self.release()`. -/
def stop (s : RCState) : RCState × List RCEffect :=
  release s

/-- `disable_internet()`: `await self._ensure_active().disable_internet()` —
the `_ensure_active` check runs first, forwarding only when it passes. -/
def disable_internet (s : RCState) : Except RCError Unit :=
  match ensure_active s with
  | .error e => .error e
  | .ok _ => .ok ()

/-- `upload(file, destination)`: forwarded to the active delegate. -/
def upload (s : RCState) (_file : List Nat) (_destination : String) : Except RCError Unit :=
  match ensure_active s with
  | .error e => .error e
  | .ok _ => .ok ()

/-- `download(file)`: forwarded to the active delegate. -/
def download (d : DelegateBehavior) (s : RCState) (file : String) :
    Except RCError (List Nat) :=
  match ensure_active s with
  | .error e => .error e
  | .ok _ => .ok (d.downloadResult file)

/-- `send_shell_command(cmd, idempotent)`: forwarded to the active delegate. -/
def send_shell_command (d : DelegateBehavior) (s : RCState) (cmd : String)
    (idempotent : Bool) : Except RCError ExecResult :=
  match ensure_active s with
  | .error e => .error e
  | .ok _ => .ok (d.shellResult cmd idempotent)

/-- `fetch_container_names()`: forwarded to the active delegate. -/
def fetch_container_names (d : DelegateBehavior) (s : RCState) :
    Except RCError (List String) :=
  match ensure_active s with
  | .error e => .error e
  | .ok _ => .ok d.containerNames

end ReleasableComputer

/- ============================================================
   paperbench/computer_utils.py — start_computer_with_retry
   (tenacity AsyncRetrying with stop_after_attempt, reraise=True)
   ============================================================ -/

/-- A raised Python exception, identified by its runtime class (`kind`)
and its message. -/
structure PyException where
  kind : Nat
  message : String
deriving DecidableEq, Repr

/-- `tenacity.retry_if_exception_type(tys)`: retry exactly when the raised
exception is an instance of one of the declared classes. -/
def retry_if_exception_type (tys : List Nat) (e : PyException) : Bool :=
  tys.contains e.kind

/-- One `tenacity.AsyncRetrying` loop with `retry=pred` and `reraise=True`,
starting at attempt number `attempt` with `fuel` attempts allowed beyond the
current one by `stop_after_attempt` (tenacity always runs the first attempt;
the stop condition is consulted only after a failure). The body of attempt
`k` is `body k`; the result is paired with the number of the last attempt
that ran. On an error the loop retries only when the retry predicate accepts
the exception and the attempt budget is not yet exhausted; otherwise the
original exception is re-raised (`reraise=True` re-raises the last
underlying exception, not a `RetryError`). -/
def retrying {E A : Type} (pred : E → Bool) (body : Nat → Except E A) :
    (fuel : Nat) → (attempt : Nat) → Except E A × Nat
  | 0, attempt => (body attempt, attempt)
  | fuel + 1, attempt =>
    match body attempt with
    | .ok a => (.ok a, attempt)
    | .error e =>
      if fuel = 0 then (.error e, attempt)
      else if pred e then retrying pred body fuel (attempt + 1)
      else (.error e, attempt)

/-- `start_computer_with_retry(runtime, config, exception_types, max_attempts=3)`:
attempts the computer start under an `AsyncRetrying` whose retry predicate is
`retry_if_exception_type(exception_types if exception_types else ())` — with no
declared types, `isinstance(e, ())` is always `False`. `body k` models the
outcome of the `computer_runtime.run(computer_config)` start on attempt `k`.
Returns the result together with the number of the final attempt. -/
def start_computer_with_retry {A : Type} (exception_types : Option (List Nat))
    (body : Nat → Except PyException A) (max_attempts : Nat) :
    Except PyException A × Nat :=
  retrying (retry_if_exception_type (exception_types.getD [])) body max_attempts 1

/-- The default `max_attempts` of `start_computer_with_retry` (`max_attempts: int = 3`). -/
def default_max_attempts : Nat := 3

/- ============================================================
   paperbench/solvers/utils.py — check_for_existing_run
   ============================================================ -/

/-- The parsed contents of `status.json`. Fields are read with
`status.get(...)`, so an absent key is `none`. -/
structure StatusJson where
  created_at : Option ℚ
  agent_finished_at : Option ℚ
  last_updated : Option ℚ
deriving DecidableEq, Repr

/-- `paperbench.nano.structs.AgentOutput` (the fields set by
`check_for_existing_run`). -/
structure AgentOutput where
  run_id : String
  time_start : ℚ
  time_end : ℚ
  error_msg : Option String
  runtime_in_seconds : ℚ
  status_exists : Bool
deriving DecidableEq, Repr

/-- What `check_for_existing_run` observes in the task's run directory:
the number of `**/*.tar.gz` matches and whether `status.json` exists
(with its parsed contents when it does). -/
structure RunDirView where
  num_tars : Nat
  status_exists : Bool
  status : StatusJson
deriving DecidableEq, Repr

/-- Python truthiness of an optional number: `None` and `0` are falsy. -/
def truthyQ : Option ℚ → Bool
  | none => false
  | some v => v != 0

/-- `check_for_existing_run(task)`: when `status.json` exists and at least one
tar archive is present, builds an `AgentOutput` from the status timestamps
(falling back to `time.time()`, the `now` parameter), sets
`task.skipped_rollout = True` and returns it; otherwise returns `None`
leaving `task.skipped_rollout` unchanged. The returned pair is
`(return value, task.skipped_rollout after the call)`. -/
def check_for_existing_run (run_id : String) (dir : RunDirView) (now : ℚ)
    (skipped_rollout : Bool) : Option AgentOutput × Bool :=
  if dir.status_exists && decide (1 ≤ dir.num_tars) then
    let start_time := if truthyQ dir.status.created_at then dir.status.created_at.getD now else now
    let end_time :=
      if truthyQ dir.status.agent_finished_at then dir.status.agent_finished_at.getD now
      else if truthyQ dir.status.last_updated then dir.status.last_updated.getD now
      else now
    (some { run_id := run_id, time_start := start_time, time_end := end_time,
            error_msg := none, runtime_in_seconds := end_time - start_time,
            status_exists := true },
      true)
  else (none, skipped_rollout)

/- ============================================================
   paperbench/solvers/basicagent/utils.py —
   should_upload_periodic_heavy_logs / optionally_upload_heavy_logs
   ============================================================ -/

/-- `should_upload_periodic_heavy_logs(num_steps, upload_interval_messages,
upload_interval_seconds, last_time_uploaded)`: at a step interval when the
message interval is set and `num_steps % upload_interval_messages == 0`; at a
time interval when the seconds interval is set and
`time.time() > last_time_uploaded + upload_interval_seconds` (the clock read
is the `now` parameter). Intervals are non-negative ints in the config. -/
def should_upload_periodic_heavy_logs (num_steps : Nat)
    (upload_interval_messages : Option Nat) (upload_interval_seconds : Option Nat)
    (last_time_uploaded : ℚ) (now : ℚ) : Bool :=
  let at_step_interval :=
    match upload_interval_messages with
    | none => false
    | some m => num_steps % m == 0
  let at_time_interval :=
    match upload_interval_seconds with
    | none => false
    | some s => decide (last_time_uploaded + (s : ℚ) < now)
  at_step_interval || at_time_interval

/-- `OptionalUploadOutcome`: the new `last_time_uploaded` and whether an
`upload_task` was created (`upload_task is not None`). -/
structure OptionalUploadOutcome where
  last_time_uploaded : ℚ
  upload_task_started : Bool
deriving DecidableEq, Repr

/-- `optionally_upload_heavy_logs(...)`: returns the previous
`last_time_uploaded` and no task when neither the periodic condition nor
`always_upload` triggers; otherwise creates the upload task, sets
`last_time_uploaded = time.time()` and, when the seconds interval is set,
snaps it to `(time.time() // upload_interval_seconds) * upload_interval_seconds`
(float floor division). The `time.time()` reads within the call are modelled
by the single instant `now`. -/
def optionally_upload_heavy_logs (num_steps : Nat)
    (upload_interval_messages : Option Nat) (upload_interval_seconds : Option Nat)
    (last_time_uploaded : ℚ) (now : ℚ) (always_upload : Bool) : OptionalUploadOutcome :=
  if !(should_upload_periodic_heavy_logs num_steps upload_interval_messages
        upload_interval_seconds last_time_uploaded now) && !always_upload then
    { last_time_uploaded := last_time_uploaded, upload_task_started := false }
  else
    let t := now
    let t :=
      match upload_interval_seconds with
      | none => t
      | some s => (⌊now / (s : ℚ)⌋ : ℚ) * (s : ℚ)
    { last_time_uploaded := t, upload_task_started := true }

/- ============================================================
   paperbench/solvers/basicagent/solver.py — _has_agent_finished
   ============================================================ -/

/-- Python truthiness of `self.time_limit : int | None`:
`None` and `0` are falsy, every other int is truthy. -/
def truthyInt : Option Int → Bool
  | none => false
  | some v => v != 0

/-- `BasicAgentSolver._has_agent_finished(num_steps, start_time, total_retry_time)`:
`over_step_limit` is `self.max_steps is not None and num_steps > self.max_steps`;
`over_time_limit` subtracts `total_retry_time` from the elapsed wall-clock time
only when `self.use_real_time_limit and self.time_limit` (truthiness), falls back
to the plain elapsed check when `self.time_limit` is truthy, and is `False`
otherwise. The `time.time()` read is the `now` parameter. -/
def has_agent_finished (max_steps : Option Nat) (time_limit : Option Int)
    (use_real_time_limit : Bool) (num_steps : Nat)
    (now start_time total_retry_time : ℚ) : Bool :=
  let over_step_limit :=
    match max_steps with
    | none => false
    | some m => decide (m < num_steps)
  let over_time_limit :=
    if use_real_time_limit && truthyInt time_limit then
      decide (((time_limit.getD 0 : Int) : ℚ) < now - start_time - total_retry_time)
    else if truthyInt time_limit then
      decide (((time_limit.getD 0 : Int) : ℚ) < now - start_time)
    else false
  over_step_limit || over_time_limit

/- ============================================================
   paperbench/solvers/basicagent/utils.py — prune_messages
   ============================================================ -/

/-- The `role` of a `ChatCompletionMessageParam`. -/
inductive Role where
  | system
  | developer
  | user
  | assistant
  | tool
deriving DecidableEq, Repr

/-- A `ChatCompletionMessageParam` as it exists at runtime: a plain dict.
`content` stands for `text_from_completion(msg)` joined to one string;
`tool_calls` holds the ids of the function tool calls on an assistant
message; `tool_call_id` is the dict entry present on tool messages. -/
structure ChatMessage where
  role : Role
  content : String
  tool_calls : List String
  tool_call_id : Option String
deriving DecidableEq, Repr

/-- `getattr(msg, "tool_call_id", None)` as executed by `prune_messages`:
a `ChatCompletionMessageParam` is a `TypedDict`, so the message is a plain
dict at runtime; `tool_call_id` is a *key* of that dict, not an attribute,
and attribute lookup always falls back to the default `None`. -/
def getattr_tool_call_id (_ : ChatMessage) : Option String := none

/-- `x in active_tool_ids` where `active_tool_ids` is a set of strings:
`None` is never a member. -/
def optional_mem (o : Option String) (ids : List String) : Bool :=
  match o with
  | none => false
  | some i => ids.contains i

/-- Does the list start with the given run of characters? -/
def starts_with : List Char → List Char → Bool
  | _, [] => true
  | [], _ :: _ => false
  | a :: as, b :: bs => a == b && starts_with as bs

/-- Does the list contain the given run of characters contiguously? -/
def has_run : List Char → List Char → Bool
  | l, sub =>
    match l with
    | [] => sub.isEmpty
    | _ :: rest => starts_with l sub || has_run rest sub

/-- `"prompt is too long" in content_str`. -/
def contains_sub (s sub : String) : Bool :=
  has_run s.data sub.data

/-- The validity pass of `prune_messages`: walks the conversation keeping a
set `active_tool_ids` of the most recent assistant message's tool-call ids.
Messages whose text contains `"prompt is too long"` are skipped; assistant
messages reset `active_tool_ids` to their own tool calls and are kept; tool
messages are kept only when `getattr(msg, "tool_call_id", None)` is in
`active_tool_ids`; user messages clear `active_tool_ids` and are kept; any
other role falls through and is dropped. -/
def valid_filter : List ChatMessage → List String → List ChatMessage
  | [], _ => []
  | msg :: rest, active_tool_ids =>
    if contains_sub msg.content "prompt is too long" then
      valid_filter rest active_tool_ids
    else
      match msg.role with
      | Role.assistant => msg :: valid_filter rest msg.tool_calls
      | Role.tool =>
        if optional_mem (getattr_tool_call_id msg) active_tool_ids then
          msg :: valid_filter rest active_tool_ids
        else
          valid_filter rest active_tool_ids
      | Role.user => msg :: valid_filter rest []
      | _ => valid_filter rest active_tool_ids

/-- `prune_messages(messages)` (with `prune_individual=False`): splits off the
system messages, finds the first user message (`task_msg`), drops the oldest
`start_idx = max(1, int(len(non_system_msgs) * 0.3))` non-system messages
(re-inserting `task_msg` in front), runs the validity pass with an empty
`active_tool_ids`, and prepends the system messages. `int(len * 0.3)`
truncates towards zero; on the sizes at play it equals `len * 3 / 10` in
natural-number division. -/
def prune_messages (messages : List ChatMessage) : List ChatMessage :=
  let system_msgs := messages.filter (fun m => m.role == Role.system)
  let non_system_msgs := messages.filter (fun m => !(m.role == Role.system))
  let task_msg := non_system_msgs.find? (fun m => m.role == Role.user)
  let start_idx := max 1 (non_system_msgs.length * 3 / 10)
  let preserved :=
    (match task_msg with
      | some t => [t]
      | none => []) ++ non_system_msgs.drop start_idx
  let valid_messages := valid_filter preserved []
  system_msgs ++ valid_messages

/- ============================================================
   paperbench/solvers/basicagent/api.py — make_completer_request
   (retry-time accounting on TimeTrackingRetryConfig)
   ============================================================ -/

/-- The completer state visible to `make_completer_request`'s accounting:
whether `hasattr(completer, "retry_config")` holds with an
`isinstance(..., TimeTrackingRetryConfig)` config, the config's
`time_spent_retrying` counter, and the rest of the completer's state,
abstracted as an opaque value untouched by the accounting. -/
structure CompleterState where
  has_time_tracking_retry_config : Bool
  time_spent_retrying : ℚ
  other_state : Nat
deriving DecidableEq, Repr

/-- `make_completer_request(completer, messages)`, successful path. During
`completer.async_completion(...)` the `TimeTrackingRetryConfig.build`
`before_sleep` hook adds the retry sleep time of this request (`delta`) onto
`time_spent_retrying`; a completer without that config accrues nothing. After
the completion, when the completer carries a `TimeTrackingRetryConfig`, the
counter is read into the response's `time_spent_retrying` and reset to `0.0`;
otherwise the reported value stays `0.0`. Returns
`(reported time_spent_retrying, completer state after the call)`. -/
def make_completer_request (c : CompleterState) (delta : ℚ) : ℚ × CompleterState :=
  let c1 :=
    if c.has_time_tracking_retry_config then
      { c with time_spent_retrying := c.time_spent_retrying + delta }
    else c
  if c1.has_time_tracking_retry_config then
    (c1.time_spent_retrying, { c1 with time_spent_retrying := 0 })
  else
    (0, c1)

/- ============================================================
   paperbench/solvers/basicagent/solver.py —
   _execute_agent / _execute_agent_and_periodically_upload_logs
   (control-flow trace semantics)
   ============================================================ -/

/-- Observable events of the solver's execution around the agent loop.
`shieldAwaitHeavyUpload` is `await asyncio.shield(upload_task)`;
`cancelAgentTask` and `cancelLightUploadTask` are the two
`cancel_async_task` calls in the `finally` block, each of which cancels
the task and then awaits it under `asyncio.shield`;
`finalUploadHeavyLogs` is the closing `await upload_heavy_logs(...)`. -/
inductive AgentEv where
  | startLightPeriodicUpload
  | startAgentTask
  | shieldAwaitHeavyUpload
  | raiseTimeout
  | logTimeout
  | logCancelled
  | cancelAgentTask
  | cancelLightUploadTask
  | finalUploadHeavyLogs
deriving DecidableEq, Repr

/-- How the `while not self._has_agent_finished(...)` loop of
`_execute_agent` ends: normally (loop condition false, or the submit tool
returned), with an `asyncio.TimeoutError` escaping the loop body
(`upload_pending` records whether a periodic heavy-upload task was still
in flight), or with the task being cancelled at an `await` point. -/
inductive AgentLoopEnd where
  | finished (num_steps : Nat)
  | timeoutErr (upload_pending : Bool)
  | cancelledErr
deriving DecidableEq, Repr

/-- How `_execute_agent` unwinds: a returned step count, a re-raised
`asyncio.TimeoutError`, or a propagated `asyncio.CancelledError`. -/
inductive InnerResult where
  | returned (n : Nat)
  | timeout
  | cancelled
deriving DecidableEq, Repr

/-- `BasicAgentSolver._execute_agent`, viewed at its exception boundary:
on a normal exit the step count is returned; on `asyncio.TimeoutError`
the handler first awaits a still-pending heavy-upload task under
`asyncio.shield` (`if upload_task: await asyncio.shield(upload_task)`) and
then re-raises; a cancellation propagates without that handler (the
`except` clause only catches `asyncio.TimeoutError`). -/
def execute_agent (outcome : AgentLoopEnd) : List AgentEv × InnerResult :=
  match outcome with
  | .finished n => ([], .returned n)
  | .timeoutErr upload_pending =>
    ((if upload_pending then [AgentEv.shieldAwaitHeavyUpload] else [])
      ++ [AgentEv.raiseTimeout], .timeout)
  | .cancelledErr => ([], .cancelled)

/-- How the `async with asyncio.timeout(self.time_limit)` block of
`_execute_agent_and_periodically_upload_logs` ends: the agent task
completed normally, the timeout fired (`asyncio.TimeoutError`), or the
enclosing task was cancelled (`asyncio.CancelledError`). -/
inductive OuterBlockEnd where
  | normal (num_steps : Nat)
  | timedOut
  | cancelled
deriving DecidableEq, Repr

/-- `BasicAgentSolver._execute_agent_and_periodically_upload_logs` as an
event trace: start the light periodic upload and the agent task inside the
timeout block; catch `asyncio.TimeoutError` and `asyncio.CancelledError`
(logging only); in the `finally` block cancel-and-shield-await the agent
task and the light upload task; then perform the one closing
`await upload_heavy_logs(...)`. -/
def execute_agent_and_periodically_upload_logs (o : OuterBlockEnd) : List AgentEv :=
  [AgentEv.startLightPeriodicUpload, AgentEv.startAgentTask]
    ++ (match o with
        | .normal _ => []
        | .timedOut => [AgentEv.logTimeout]
        | .cancelled => [AgentEv.logCancelled])
    ++ [AgentEv.cancelAgentTask, AgentEv.cancelLightUploadTask]
    ++ [AgentEv.finalUploadHeavyLogs]

/- ============================================================
   Theorems
   ============================================================ -/

theorem rc_ensure_active_released (s : RCState) (h : s.released = true) :
    ReleasableComputer.ensure_active s = .error .alreadyReleased := by
  simp [ReleasableComputer.ensure_active, h]

theorem rc_release_released (s : RCState) :
    (ReleasableComputer.release s).1.released = true := by
  by_cases h : s.released = true
  · simp [ReleasableComputer.release, h]
  · simp [ReleasableComputer.release, h]

theorem rc_release_of_released (s : RCState) (h : s.released = true) :
    ReleasableComputer.release s = (s, []) := by
  simp [ReleasableComputer.release, h]

theorem rc_ops_fail_of_released (d : DelegateBehavior) (s : RCState) (h : s.released = true)
    (file : List Nat) (dest path cmd : String) (idem : Bool) :
    ReleasableComputer.disable_internet s = .error .alreadyReleased
    ∧ ReleasableComputer.upload s file dest = .error .alreadyReleased
    ∧ ReleasableComputer.download d s path = .error .alreadyReleased
    ∧ ReleasableComputer.send_shell_command d s cmd idem = .error .alreadyReleased
    ∧ ReleasableComputer.fetch_container_names d s = .error .alreadyReleased := by
  have he := rc_ensure_active_released s h
  exact ⟨by simp [ReleasableComputer.disable_internet, he],
    by simp [ReleasableComputer.upload, he],
    by simp [ReleasableComputer.download, he],
    by simp [ReleasableComputer.send_shell_command, he],
    by simp [ReleasableComputer.fetch_container_names, he]⟩

/-- Claim C1: once `release()` has completed on a `ReleasableComputer`, every
subsequent operation (`disable_internet`, `upload`, `download`,
`send_shell_command`, `fetch_container_names`) raises the released error, and
any further `release()` returns silently, with no cleanup effects run a
second time (double-release is a no-op). -/
theorem releasable_computer_release_finalizes (d : DelegateBehavior) (s : RCState)
    (file : List Nat) (dest path cmd : String) (idem : Bool) :
    ReleasableComputer.disable_internet (ReleasableComputer.release s).1
        = .error .alreadyReleased
    ∧ ReleasableComputer.upload (ReleasableComputer.release s).1 file dest
        = .error .alreadyReleased
    ∧ ReleasableComputer.download d (ReleasableComputer.release s).1 path
        = .error .alreadyReleased
    ∧ ReleasableComputer.send_shell_command d (ReleasableComputer.release s).1 cmd idem
        = .error .alreadyReleased
    ∧ ReleasableComputer.fetch_container_names d (ReleasableComputer.release s).1
        = .error .alreadyReleased
    ∧ ReleasableComputer.release (ReleasableComputer.release s).1
        = ((ReleasableComputer.release s).1, []) := by
  have h := rc_release_released s
  obtain ⟨h1, h2, h3, h4, h5⟩ := rc_ops_fail_of_released d _ h file dest path cmd idem
  exact ⟨h1, h2, h3, h4, h5, rc_release_of_released _ h⟩

/-- Claim C9: `stop()` on a `ReleasableComputer` is `release()`: it produces
the same state transition and effects, after `stop()` every operation raises
the released error, and any subsequent `stop()` or `release()` call is a
silent no-op. -/
theorem stop_aliases_release (d : DelegateBehavior) (s : RCState)
    (file : List Nat) (dest path cmd : String) (idem : Bool) :
    ReleasableComputer.stop s = ReleasableComputer.release s
    ∧ ReleasableComputer.disable_internet (ReleasableComputer.stop s).1
        = .error .alreadyReleased
    ∧ ReleasableComputer.upload (ReleasableComputer.stop s).1 file dest
        = .error .alreadyReleased
    ∧ ReleasableComputer.download d (ReleasableComputer.stop s).1 path
        = .error .alreadyReleased
    ∧ ReleasableComputer.send_shell_command d (ReleasableComputer.stop s).1 cmd idem
        = .error .alreadyReleased
    ∧ ReleasableComputer.fetch_container_names d (ReleasableComputer.stop s).1
        = .error .alreadyReleased
    ∧ ReleasableComputer.stop (ReleasableComputer.stop s).1
        = ((ReleasableComputer.stop s).1, [])
    ∧ ReleasableComputer.release (ReleasableComputer.stop s).1
        = ((ReleasableComputer.stop s).1, []) := by
  have h : (ReleasableComputer.stop s).1.released = true := rc_release_released s
  obtain ⟨h1, h2, h3, h4, h5⟩ := rc_ops_fail_of_released d _ h file dest path cmd idem
  exact ⟨rfl, h1, h2, h3, h4, h5, rc_release_of_released _ h, rc_release_of_released _ h⟩

/-- Claim C2: `check_for_existing_run` returns a non-null `AgentOutput` and
marks the task's rollout as skipped exactly when `status.json` exists and at
least one `*.tar.gz` snapshot archive is present in the run directory; for
every other run directory it returns `None` and leaves the skip flag as it
was, so the agent is run. -/
theorem check_for_existing_run_iff (rid : String) (dir : RunDirView) (now : ℚ)
    (skipped : Bool) :
    ((check_for_existing_run rid dir now skipped).1.isSome = true
      ↔ (dir.status_exists = true ∧ 1 ≤ dir.num_tars))
    ∧ (check_for_existing_run rid dir now skipped).2
        = ((check_for_existing_run rid dir now skipped).1.isSome || skipped) := by
  cases hse : dir.status_exists with
  | false => simp [check_for_existing_run, hse]
  | true =>
    by_cases ht : 1 ≤ dir.num_tars
    · simp [check_for_existing_run, hse, ht]
    · simp [check_for_existing_run, hse, ht]

/-- Claim C10: on the successful path, `make_completer_request` reports
exactly the retry time accumulated on the `TimeTrackingRetryConfig` counter
since the previous call and resets the counter to `0.0`, so a consecutive
call reports only the newly accrued retry time; without such a retry config
the reported time is always `0.0`; and the accounting modifies no completer
state other than the counter. -/
theorem make_completer_request_accounting (c : CompleterState) (d1 d2 : ℚ) :
    (make_completer_request c d1).1
        = (if c.has_time_tracking_retry_config = true then c.time_spent_retrying + d1 else 0)
    ∧ (make_completer_request c d1).2.time_spent_retrying
        = (if c.has_time_tracking_retry_config = true then 0 else c.time_spent_retrying)
    ∧ (make_completer_request c d1).2.other_state = c.other_state
    ∧ (make_completer_request c d1).2.has_time_tracking_retry_config
        = c.has_time_tracking_retry_config
    ∧ (make_completer_request (make_completer_request c d1).2 d2).1
        = (if c.has_time_tracking_retry_config = true then d2 else 0) := by
  cases h : c.has_time_tracking_retry_config <;>
    simp [make_completer_request, h]


/-- Claim C3: in every execution of
`_execute_agent_and_periodically_upload_logs` — normal agent completion,
`asyncio.TimeoutError`, or cancellation — the closing `upload_heavy_logs`
call appears exactly once in the trace and only after the agent loop and the
task cancellations have unwound; and `_execute_agent`, when it unwinds with
a timeout while a heavy-upload task is pending, awaits that task under
`asyncio.shield` before re-raising. -/
theorem final_heavy_upload_exactly_once (o : OuterBlockEnd) :
    (execute_agent_and_periodically_upload_logs o).count AgentEv.finalUploadHeavyLogs = 1
    ∧ (execute_agent_and_periodically_upload_logs o).getLast?
        = some AgentEv.finalUploadHeavyLogs
    ∧ execute_agent (AgentLoopEnd.timeoutErr true)
        = ([AgentEv.shieldAwaitHeavyUpload, AgentEv.raiseTimeout], InnerResult.timeout) := by
  cases o <;> exact ⟨rfl, rfl, rfl⟩

/-- Claim C4 (failing input): on the conversation
`[user task, assistant with tool call "call1", tool result for "call1"]`,
`prune_messages` keeps the assistant message but drops its paired tool
result, because `getattr(msg, "tool_call_id", None)` on a dict-typed message
always yields `None` — contradicting the function's own docstring
("Ensuring tool messages remain paired with their parent assistant
messages"). -/
theorem prune_messages_drops_tool_result_of_kept_assistant :
    prune_messages
        [{ role := Role.user, content := "task", tool_calls := [], tool_call_id := none },
         { role := Role.assistant, content := "run", tool_calls := ["call1"],
           tool_call_id := none },
         { role := Role.tool, content := "out", tool_calls := [],
           tool_call_id := some "call1" }]
      = [{ role := Role.user, content := "task", tool_calls := [], tool_call_id := none },
         { role := Role.assistant, content := "run", tool_calls := ["call1"],
           tool_call_id := none }] := by
  decide

theorem retrying_last_attempt_lt {E A : Type} (pred : E → Bool)
    (body : Nat → Except E A) :
    ∀ fuel attempt, (retrying pred body fuel attempt).2 < attempt + max fuel 1 := by
  intro fuel
  induction fuel with
  | zero =>
    intro attempt
    have h2 : (retrying pred body 0 attempt).2 = attempt := by simp [retrying]
    omega
  | succ f ih =>
    intro attempt
    cases hb : body attempt with
    | ok a =>
      have h2 : (retrying pred body (f + 1) attempt).2 = attempt := by
        simp [retrying, hb]
      omega
    | error e =>
      by_cases hf : f = 0
      · have h2 : (retrying pred body (f + 1) attempt).2 = attempt := by
          simp [retrying, hb, hf]
        omega
      · by_cases hp : pred e = true
        · have h2 : (retrying pred body (f + 1) attempt).2
              = (retrying pred body f (attempt + 1)).2 := by
            simp [retrying, hb, hf, hp]
          have h3 := ih (attempt + 1)
          omega
        · have h2 : (retrying pred body (f + 1) attempt).2 = attempt := by
            simp [retrying, hb, hf, hp]
          omega

theorem retrying_intermediate_failures {E A : Type} (pred : E → Bool)
    (body : Nat → Except E A) :
    ∀ fuel attempt k, attempt ≤ k → k < (retrying pred body fuel attempt).2 →
      ∃ e, body k = .error e ∧ pred e = true := by
  intro fuel
  induction fuel with
  | zero =>
    intro attempt k hak hk
    have h2 : (retrying pred body 0 attempt).2 = attempt := by simp [retrying]
    exact absurd hak (by omega)
  | succ f ih =>
    intro attempt k hak hk
    cases hb : body attempt with
    | ok a =>
      have h2 : (retrying pred body (f + 1) attempt).2 = attempt := by
        simp [retrying, hb]
      exact absurd hak (by omega)
    | error e =>
      by_cases hf : f = 0
      · have h2 : (retrying pred body (f + 1) attempt).2 = attempt := by
          simp [retrying, hb, hf]
        exact absurd hak (by omega)
      · by_cases hp : pred e = true
        · have h2 : (retrying pred body (f + 1) attempt).2
              = (retrying pred body f (attempt + 1)).2 := by
            simp [retrying, hb, hf, hp]
          rw [h2] at hk
          rcases Nat.lt_or_ge k (attempt + 1) with hlt | hge
          · have hke : k = attempt := by omega
            subst hke
            exact ⟨e, hb, hp⟩
          · exact ih (attempt + 1) k hge hk
        · have h2 : (retrying pred body (f + 1) attempt).2 = attempt := by
            simp [retrying, hb, hf, hp]
          exact absurd hak (by omega)

theorem retrying_error_from_last {E A : Type} (pred : E → Bool)
    (body : Nat → Except E A) :
    ∀ fuel attempt e, (retrying pred body fuel attempt).1 = .error e →
      body (retrying pred body fuel attempt).2 = .error e := by
  intro fuel
  induction fuel with
  | zero =>
    intro attempt e he
    have hr : retrying pred body 0 attempt = (body attempt, attempt) := by
      simp [retrying]
    rw [hr] at he ⊢
    exact he
  | succ f ih =>
    intro attempt e he
    cases hb : body attempt with
    | ok a =>
      have hr : retrying pred body (f + 1) attempt = (.ok a, attempt) := by
        simp [retrying, hb]
      rw [hr] at he
      exact absurd he (by simp)
    | error e0 =>
      by_cases hf : f = 0
      · have hr : retrying pred body (f + 1) attempt = (.error e0, attempt) := by
          simp [retrying, hb, hf]
        rw [hr] at he ⊢
        simp at he
        rw [he] at hb
        exact hb
      · by_cases hp : pred e0 = true
        · have hr : retrying pred body (f + 1) attempt
              = retrying pred body f (attempt + 1) := by
            simp [retrying, hb, hf, hp]
          rw [hr] at he ⊢
          exact ih (attempt + 1) e he
        · have hr : retrying pred body (f + 1) attempt = (.error e0, attempt) := by
            simp [retrying, hb, hf, hp]
          rw [hr] at he ⊢
          simp at he
          rw [he] at hb
          exact hb

theorem retrying_no_retry_of_pred_false {E A : Type} (pred : E → Bool)
    (body : Nat → Except E A) (hpred : ∀ e, pred e = false) :
    ∀ fuel attempt, (retrying pred body fuel attempt).2 = attempt := by
  intro fuel
  induction fuel with
  | zero => intro attempt; simp [retrying]
  | succ f _ =>
    intro attempt
    cases hb : body attempt with
    | ok a => simp [retrying, hb]
    | error e =>
      by_cases hf : f = 0
      · simp [retrying, hb, hf]
      · simp [retrying, hb, hf, hpred e]

/-- Claim C5: with the default `max_attempts = 3`, `start_computer_with_retry`
runs at most 3 attempts; every attempt before the final one failed with an
exception of one of the declared kinds (so a failure is retried only for
declared exception kinds); with no declared kinds only one attempt runs; and
when the call fails, the exception re-raised to the caller is exactly the one
raised by the final attempt. -/
theorem start_computer_with_retry_policy (A : Type) (tys : Option (List Nat))
    (body : Nat → Except PyException A) :
    (start_computer_with_retry tys body default_max_attempts).2 ≤ 3
    ∧ (∀ k, 1 ≤ k → k < (start_computer_with_retry tys body default_max_attempts).2 →
        ∃ e, body k = .error e ∧ retry_if_exception_type (tys.getD []) e = true)
    ∧ (tys = none → (start_computer_with_retry tys body default_max_attempts).2 = 1)
    ∧ (∀ e, (start_computer_with_retry tys body default_max_attempts).1 = .error e →
        body (start_computer_with_retry tys body default_max_attempts).2 = .error e) := by
  refine ⟨?_, ?_, ?_, ?_⟩
  · have h := retrying_last_attempt_lt (retry_if_exception_type (tys.getD [])) body 3 1
    have h2 : (start_computer_with_retry tys body default_max_attempts).2
        = (retrying (retry_if_exception_type (tys.getD [])) body 3 1).2 := rfl
    omega
  · intro k h1 hk
    exact retrying_intermediate_failures (retry_if_exception_type (tys.getD [])) body 3 1 k h1 hk
  · intro h
    subst h
    exact retrying_no_retry_of_pred_false _ body
      (fun e => by simp [retry_if_exception_type, Option.getD, List.contains]) 3 1
  · intro e he
    exact retrying_error_from_last (retry_if_exception_type (tys.getD [])) body 3 1 e he

/-- Claim C5 witness: with declared kind `7` and a body that always raises a
kind-`7` exception, the policy theorem applies: at most 3 attempts run, and
attempt 1 — which precedes the final attempt — failed with a declared
exception kind. -/
theorem start_computer_with_retry_policy_witness :
    (start_computer_with_retry (some [7])
        (fun _ => (.error ⟨7, "transient"⟩ : Except PyException Nat))
        default_max_attempts).2 ≤ 3
    ∧ ∃ e, (fun _ => (.error ⟨7, "transient"⟩ : Except PyException Nat)) 1 = .error e
        ∧ retry_if_exception_type ((some [7]).getD []) e = true := by
  have h := start_computer_with_retry_policy Nat (some [7])
    (fun _ => .error ⟨7, "transient"⟩)
  exact ⟨h.1, h.2.1 1 (le_refl 1) (by decide)⟩

theorem dvd_iff_mod_zero (m n : Nat) : m ∣ n ↔ n % m = 0 := by
  constructor
  · rintro ⟨c, rfl⟩
    simp [Nat.mul_mod_right]
  · intro h
    exact Nat.dvd_of_mod_eq_zero h

/-- Claim C6: `should_upload_periodic_heavy_logs` returns `True` iff the
message interval is set and `num_steps` is an exact multiple of it, or the
seconds interval is set and the current wall-clock time exceeds
`last_time_uploaded` plus the interval; with both intervals `None` it is
always `False`. -/
theorem should_upload_periodic_heavy_logs_iff (n : Nat) (uim uis : Option Nat)
    (last now : ℚ) :
    (should_upload_periodic_heavy_logs n uim uis last now = true
      ↔ ((∃ m, uim = some m ∧ m ∣ n) ∨ (∃ s, uis = some s ∧ last + (s : ℚ) < now)))
    ∧ should_upload_periodic_heavy_logs n none none last now = false := by
  constructor
  · cases uim with
    | none =>
      cases uis with
      | none => simp [should_upload_periodic_heavy_logs]
      | some s => simp [should_upload_periodic_heavy_logs]
    | some m =>
      cases uis with
      | none => simp [should_upload_periodic_heavy_logs, dvd_iff_mod_zero]
      | some s => simp [should_upload_periodic_heavy_logs, dvd_iff_mod_zero]
  · simp [should_upload_periodic_heavy_logs]

/-- Claim C7: whenever `optionally_upload_heavy_logs` starts an upload and
the seconds interval is set, the returned `last_time_uploaded` is snapped to
the start of the current wall-clock interval,
`floor(now / upload_interval_seconds) * upload_interval_seconds`; when no
upload is triggered the previous `last_time_uploaded` is returned
unchanged. -/
theorem optionally_upload_heavy_logs_aligns (n : Nat) (uim uis : Option Nat)
    (last now : ℚ) (always : Bool) :
    (∀ s, uis = some s →
      (optionally_upload_heavy_logs n uim uis last now always).upload_task_started = true →
      (optionally_upload_heavy_logs n uim uis last now always).last_time_uploaded
        = (⌊now / (s : ℚ)⌋ : ℚ) * (s : ℚ))
    ∧ ((optionally_upload_heavy_logs n uim uis last now always).upload_task_started = false →
      (optionally_upload_heavy_logs n uim uis last now always).last_time_uploaded = last) := by
  cases hcond : (!(should_upload_periodic_heavy_logs n uim uis last now) && !always) with
  | true =>
    refine ⟨fun s hs hstart => ?_, fun _ => ?_⟩
    · rw [optionally_upload_heavy_logs, hcond] at hstart
      simp at hstart
    · simp [optionally_upload_heavy_logs, hcond]
  | false =>
    refine ⟨fun s hs hstart => ?_, fun hstop => ?_⟩
    · subst hs
      simp [optionally_upload_heavy_logs, hcond]
    · rw [optionally_upload_heavy_logs, hcond] at hstop
      simp at hstop

/-- Claim C7 witness: with `upload_interval_seconds = 10`, `now = 25` and
`always_upload = true`, the upload starts and the returned
`last_time_uploaded` is `floor(25 / 10) * 10 = 20`, the start of the current
wall-clock interval. -/
theorem optionally_upload_heavy_logs_aligns_witness :
    (optionally_upload_heavy_logs 0 none (some 10) 0 25 true).last_time_uploaded
        = (⌊(25 : ℚ) / ((10 : Nat) : ℚ)⌋ : ℚ) * ((10 : Nat) : ℚ)
    ∧ (optionally_upload_heavy_logs 0 none (some 10) 0 25 true).last_time_uploaded = 20 := by
  have hstart : (optionally_upload_heavy_logs 0 none (some 10) 0 25 true).upload_task_started
      = true := by
    simp [optionally_upload_heavy_logs]
  have h := (optionally_upload_heavy_logs_aligns 0 none (some 10) 0 25 true).1 10 rfl hstart
  refine ⟨h, ?_⟩
  rw [h]
  norm_num

/-- Claim C8 (counterexample): with `max_steps = None`, `time_limit = 0`,
`use_real_time_limit = False`, `num_steps = 0` and 5 seconds elapsed, the
claimed equivalence fails: the time limit is set (to `0`) and the elapsed
time exceeds it, yet `_has_agent_finished` returns `False`, because Python
truthiness makes `self.time_limit == 0` disable the wall-clock check. -/
theorem has_agent_finished_claim_fails_at_zero_time_limit :
    ¬ (has_agent_finished none (some 0) false 0 5 0 0 = true
        ↔ ((∃ m, (none : Option Nat) = some m ∧ m < 0)
            ∨ (∃ t : Int, (some 0 : Option Int) = some t
                ∧ (t : ℚ) < (if (false : Bool) = true then 5 - 0 - 0 else 5 - 0)))) := by
  intro h
  have hcode : has_agent_finished none (some 0) false 0 5 0 0 = false := by
    simp [has_agent_finished, truthyInt]
  have hclaim : ((∃ m, (none : Option Nat) = some m ∧ m < 0)
      ∨ (∃ t : Int, (some 0 : Option Int) = some t
          ∧ (t : ℚ) < (if (false : Bool) = true then 5 - 0 - 0 else 5 - 0))) :=
    Or.inr ⟨0, rfl, by norm_num⟩
  have h2 := h.mpr hclaim
  rw [hcode] at h2
  exact absurd h2 (by simp)

/-- Claim C8 (amended): `_has_agent_finished` returns `True` iff the
step-count limit is exceeded (`max_steps` set and `num_steps > max_steps`) or
the wall-clock limit is exceeded (`time_limit` set *and nonzero*, and the
elapsed time — minus `total_retry_time` when `use_real_time_limit` is on —
exceeds it); with no limits configured it is always `False`. -/
theorem has_agent_finished_iff_limits (max_steps : Option Nat) (time_limit : Option Int)
    (use_real : Bool) (n : Nat) (now start retry : ℚ) :
    (has_agent_finished max_steps time_limit use_real n now start retry = true
      ↔ ((∃ m, max_steps = some m ∧ m < n)
          ∨ (∃ t : Int, time_limit = some t ∧ t ≠ 0
              ∧ (t : ℚ) < (if use_real = true then now - start - retry else now - start))))
    ∧ has_agent_finished none none use_real n now start retry = false := by
  constructor
  · cases max_steps with
    | none =>
      cases time_limit with
      | none => cases use_real <;> simp [has_agent_finished, truthyInt]
      | some t =>
        by_cases ht : t = 0
        · subst ht
          cases use_real <;> simp [has_agent_finished, truthyInt]
        · cases use_real <;> simp [has_agent_finished, truthyInt, ht]
    | some m =>
      cases time_limit with
      | none => cases use_real <;> simp [has_agent_finished, truthyInt]
      | some t =>
        by_cases ht : t = 0
        · subst ht
          cases use_real <;> simp [has_agent_finished, truthyInt]
        · cases use_real <;> simp [has_agent_finished, truthyInt, ht]
  · cases use_real <;> simp [has_agent_finished, truthyInt]
